import Mathlib

/-!
Verification of the MonCash payment integration (payments app: models.py,
services.py, views.py) against its natural-language specification.

The Python code is shallowly embedded: Django rows become Lean structures,
the database becomes a list of rows (in the default queryset order, i.e.
descending `created_at`), monetary `Decimal` amounts become `Int`
(centimes), timestamps become `Int` seconds, and every gateway HTTP call is
a parameter (`GatewayEnv`) returning either a parsed JSON payload or a
transport error (`Except`).  Raised `MonCashAPIError`s and other exceptions
become `Except` error values; the UUID-based generated identifiers are
modelled by deterministic fresh strings indexed by the fresh primary key.
-/

namespace Afepanou

/-- Status choices of `PaymentTransaction.STATUS_CHOICES` (models.py). -/
inductive TxnStatus where
  | initiated
  | pending
  | processing
  | success
  | failed
  | cancelled
  | expired
  | refunded
deriving DecidableEq

/-- `PAYMENT_TYPE_CHOICES` (models.py). -/
inductive PaymentType where
  | payment
  | payout
  | refund
deriving DecidableEq

/-- A marketplace `Order` row (marketplace/models.py), restricted to the
fields the payments app reads or writes. -/
structure Order where
  id : Nat
  order_number : String := ""
  status : String := "pending"
  customer : Nat := 0
  total_amount : Int := 0
deriving DecidableEq

/-- One `PaymentTransaction` row (models.py).  The `order` foreign key is
modelled as the related `Order` object (`none` when the column is NULL). -/
structure PaymentTransaction where
  id : Nat
  order : Option Order := none
  external_order_id : String := ""
  payment_type : PaymentType := .payment
  amount : Int
  currency : String := "HTG"
  status : TxnStatus := .initiated
  transaction_id : String := ""
  reference : String := ""
  payment_token : String := ""
  payer_phone : String := ""
  payer_account : String := ""
  payment_completed_at : Option Int := none
  payment_expires_at : Option Int := none
  response_message : String := ""
  response_code : String := ""
  return_url : String := ""
  redirect_url : String := ""
  retry_count : Nat := 0
  max_retries : Nat := 3
  error_details : String := ""
  notes : String := ""
  created_at : Int := 0
deriving DecidableEq

/-- Declared metadata of the `PaymentTransaction.order` ForeignKey
(models.py lines 37-42): no `null=True` is given, so the Django default
`null=False` applies and the column is NOT NULL. -/
def orderFieldNull : Bool := false

/-- Ten minutes, the MonCash payment expiry window, in seconds. -/
def tenMinutes : Int := 600

/-- Deterministic stand-in for `generate_order_id()`'s UUID, indexed by the
fresh primary key of the row being created. -/
def genExternalOrderId (pk : Nat) : String := "ORD-GEN-" ++ toString pk

/-- Deterministic stand-in for the UUID payout reference
`PAYOUT-{uuid4().hex[:12].upper()}` (services.py `create_payout`). -/
def genPayoutReference (pk : Nat) : String := "PAYOUT-GEN-" ++ toString pk

/-- The custom `PaymentTransaction.save()` override (models.py lines
118-131): autogenerate `external_order_id` when blank, set the 10-minute
expiry when the row is still `initiated` and has no expiry, and stamp
`payment_completed_at` on `success`. -/
def saveHook (now : Int) (t : PaymentTransaction) : PaymentTransaction :=
  let t1 := if t.external_order_id = "" then
      { t with external_order_id := genExternalOrderId t.id } else t
  let t2 := if t1.payment_expires_at = none ∧ t1.status = .initiated then
      { t1 with payment_expires_at := some (now + tenMinutes) } else t1
  if t2.status = .success ∧ t2.payment_completed_at = none then
    { t2 with payment_completed_at := some now } else t2

/-- `PaymentTransaction.is_expired` (models.py): strictly past
`payment_expires_at`; a row without an expiry never counts as expired. -/
def PaymentTransaction.is_expired (t : PaymentTransaction) (now : Int) : Bool :=
  match t.payment_expires_at with
  | some e => now > e
  | none => false

/-- `PaymentTransaction.is_pending` (models.py): the unsettled statuses. -/
def PaymentTransaction.is_pending (t : PaymentTransaction) : Bool :=
  t.status == .initiated || t.status == .pending || t.status == .processing

/-- The terminal statuses named by the spec's expiration invariant. -/
def terminalStatus (s : TxnStatus) : Bool :=
  s == .success || s == .failed || s == .cancelled || s == .refunded

/-- `PaymentTransaction.mark_as_expired` (models.py lines 158-162): flip to
`expired` only when still unsettled and already past expiry, then save. -/
def mark_as_expired (now : Int) (t : PaymentTransaction) : PaymentTransaction :=
  if t.is_pending ∧ t.is_expired now then
    saveHook now { t with status := .expired }
  else t

/-- The queryset filter of `cleanup_expired_transactions` (services.py
lines 539-552): status in {initiated, pending} and expiry strictly before
now (SQL `NULL < x` is false, so rows without an expiry are excluded). -/
def expiredSweepSelected (now : Int) (t : PaymentTransaction) : Bool :=
  (t.status == .initiated || t.status == .pending) &&
    (match t.payment_expires_at with
     | some e => e < now
     | none => false)

/-- `MonCashService.cleanup_expired_transactions`: call `mark_as_expired`
on each selected row and report how many rows were selected. -/
def cleanup_expired_transactions (now : Int) (db : List PaymentTransaction) :
    List PaymentTransaction × Nat :=
  (db.map (fun t => if expiredSweepSelected now t then mark_as_expired now t else t),
   (db.filter (expiredSweepSelected now)).length)

/-- Fresh primary key for an insert: one above the largest id in the table. -/
def nextId (db : List PaymentTransaction) : Nat :=
  db.foldr (fun t m => max t.id m) 0 + 1

/-- Persisting a modified row: overwrite the row carrying the same pk. -/
def replaceTxn (db : List PaymentTransaction) (t : PaymentTransaction) :
    List PaymentTransaction :=
  db.map (fun u => if u.id = t.id then t else u)

/-- The rows `create_refund` sums (services.py lines 467-472): successful
refund transactions whose `reference` is the original's gateway id. -/
def countedRefund (ref : String) (t : PaymentTransaction) : Bool :=
  t.reference == ref && t.payment_type == .refund && t.status == .success

/-- `total_refunded` of `create_refund`: sum of amounts of the successful
refunds referencing `ref`. -/
def sumSuccessfulRefunds (db : List PaymentTransaction) (ref : String) : Int :=
  ((db.filter (countedRefund ref)).map PaymentTransaction.amount).sum

/-- Cache duration chosen by `get_access_token` (services.py line 79):
`max(expires_in - 10, 30)` seconds. -/
def tokenCacheTimeout (expires_in : Int) : Int := max (expires_in - 10) 30

/-- The OAuth token JSON body read by `get_access_token`; `expires_in`
defaults to 59 when the key is absent. -/
structure TokenResponse where
  access_token : Option String := none
  expires_in : Option Int := none
deriving DecidableEq

/-- Cache duration `get_access_token` uses for a given token response. -/
def tokenCacheDuration (r : TokenResponse) : Int :=
  tokenCacheTimeout (r.expires_in.getD 59)

/-- The raised `MonCashAPIError`s and other exceptions of the payments app,
one constructor per distinct `raise` site (messages elided). -/
inductive PayError where
  | transport
  | configIncomplete
  | orderAlreadyPaid
  | orderNotFound
  | refundExceedsOriginal
  | cumulativeRefundExceedsOriginal
  | originalNotEligible
  | invalidRecipient
  | recipientNotActive
  | payerPhoneMissing
  | orderAttributeError
  | noPaymentToken
deriving DecidableEq

/-- Rendering used where the Python stores `str(e)` into `error_details`. -/
def PayError.msg : PayError → String
  | .transport => "moncash communication error"
  | .configIncomplete => "moncash configuration incomplete"
  | .orderAlreadyPaid => "order already paid"
  | .orderNotFound => "order not found"
  | .refundExceedsOriginal => "refund amount exceeds original amount"
  | .cumulativeRefundExceedsOriginal => "total refunds would exceed original amount"
  | .originalNotEligible => "original transaction not found or not eligible"
  | .invalidRecipient => "invalid payout recipient"
  | .recipientNotActive => "payout recipient not active"
  | .payerPhoneMissing => "payer phone not available"
  | .orderAttributeError => "order attribute missing"
  | .noPaymentToken => "no payment token received"

/-- The `payment` object inside a `RetrieveTransactionPayment` /
`RetrieveOrderPayment` response; every key may be absent. -/
structure PaymentInfo where
  message : Option String := none
  transaction_id : Option String := none
  reference : Option String := none
  payer : Option String := none
deriving DecidableEq

/-- A payment-details response body; `payment` may be absent. -/
structure PaymentDetails where
  payment : Option PaymentInfo := none
deriving DecidableEq

/-- The `token` object of a `CreatePayment` response (`payment_token` in
the JSON); `token` itself may be absent, read with default `''`. -/
structure TokenObj where
  token : Option String := none
deriving DecidableEq

/-- A `CreatePayment` response body: `payment_token = none` models both an
absent and a falsy (empty) `payment_token` value; `status` is the numeric
gateway status used for `response_code`. -/
structure CreatePaymentResp where
  payment_token : Option TokenObj := none
  status : Option Nat := none
deriving DecidableEq

/-- The `customerStatus` object of a `CustomerStatus` response. -/
structure CustomerStatusInfo where
  status : List String := []
  accountType : String := ""
deriving DecidableEq

/-- A `CustomerStatus` response body; `customerStatus` may be absent. -/
structure CustomerStatusResp where
  customerStatus : Option CustomerStatusInfo := none
deriving DecidableEq

/-- The `transfer` object of a `Transfert` (payout) response. -/
structure TransferInfo where
  message : Option String := none
  transaction_id : Option String := none
deriving DecidableEq

/-- A `Transfert` response body; `transfer` may be absent. -/
structure TransferResp where
  transfer : Option TransferInfo := none
deriving DecidableEq

/-- The external MonCash gateway, one field per endpoint the embedded code
calls.  An `Except.error` models `_make_request` raising `MonCashAPIError`
(transport failure or non-2xx).  `configOk = false` models an incomplete
MonCash configuration, which makes the `MonCashService` constructor raise. -/
structure GatewayEnv where
  retrieveByTransactionId : String → Except Unit PaymentDetails := fun _ => .error ()
  retrieveByOrderId : String → Except Unit PaymentDetails := fun _ => .error ()
  createPaymentCall : Except Unit CreatePaymentResp := .error ()
  customerStatusCall : String → Except Unit CustomerStatusResp := fun _ => .error ()
  transferCall : Except Unit TransferResp := .error ()
  configOk : Bool := true

/-- The lookup cascade of `update_transaction_status` (services.py lines
392-405): try `transaction_id` first, then `external_order_id`, each only
when the local field is non-blank, swallowing gateway errors. -/
def lookupPaymentDetails (gw : GatewayEnv) (t : PaymentTransaction) :
    Option PaymentDetails :=
  let d1 : Option PaymentDetails :=
    if t.transaction_id ≠ "" then (gw.retrieveByTransactionId t.transaction_id).toOption
    else none
  match d1 with
  | some d => some d
  | none =>
      if t.external_order_id ≠ "" then (gw.retrieveByOrderId t.external_order_id).toOption
      else none

/-- `MonCashService.update_transaction_status` (services.py lines 383-447)
on one transaction row (the linked order object rides inside the row).
Returns the saved row and the function's boolean result. -/
def update_transaction_status (gw : GatewayEnv) (now : Int)
    (t : PaymentTransaction) : PaymentTransaction × Bool :=
  if t.transaction_id = "" ∧ t.external_order_id = "" then (t, false)
  else
    match lookupPaymentDetails gw t with
    | none => (t, false)
    | some details =>
        match details.payment with
        | none => (t, false)
        | some p =>
            let t1 :=
              if p.message = some "successful" then
                let base := { t with status := .success, payment_completed_at := some now }
                if t.payment_type = .payment ∧ t.order.isSome then
                  { base with order := t.order.map (fun o => { o with status := "paid" }) }
                else base
              else if p.message = some "failed" ∨ p.message = some "cancelled" then
                { t with status := .failed }
              else t
            let t2 := { t1 with
              transaction_id := p.transaction_id.getD t1.transaction_id,
              reference := p.reference.getD t1.reference,
              payer_phone := p.payer.getD t1.payer_phone,
              response_message := p.message.getD "" }
            (saveHook now t2, true)

/-- Result of `check_customer_status` (services.py lines 217-239). -/
structure CustomerCheck where
  success : Bool
  isActive : Bool := false
  isRegistered : Bool := false
deriving DecidableEq

/-- `MonCashService.check_customer_status`: a transport error propagates as
a raised `MonCashAPIError`; an absent `customerStatus` key yields a
non-success result. -/
def check_customer_status (gw : GatewayEnv) (account : String) :
    Except PayError CustomerCheck :=
  match gw.customerStatusCall account with
  | .error _ => .error .transport
  | .ok r =>
      match r.customerStatus with
      | some cs =>
          .ok { success := true,
                isActive := cs.status.contains "active",
                isRegistered := cs.status.contains "registered" }
      | none => .ok { success := false }

/-- The dictionary `create_payout` returns. -/
structure PayoutResult where
  success : Bool
  txn : PaymentTransaction
  moncash_transaction_id : Option String := none
  message : String := ""
  errorText : String := ""
deriving DecidableEq

/-- The local transaction row `create_payout` creates before calling the
gateway (services.py lines 259-268): a payout with no order. -/
def payoutRow (db : List PaymentTransaction) (receiver : String) (amount : Int)
    (description : String) (ref : String) (now : Int) : PaymentTransaction :=
  saveHook now
    { id := nextId db, order := none, amount := amount,
      status := .initiated, payment_type := .payout, reference := ref,
      payer_account := receiver, notes := description, created_at := now }

/-- `MonCashService.create_payout` (services.py lines 241-323).  A raised
exception is an `Except.error`; in branches where a local transaction was
already created, the `except` clause has marked it `failed` and saved it
before re-raising, so the returned database reflects that. -/
def create_payout (gw : GatewayEnv) (db : List PaymentTransaction)
    (receiver : String) (amount : Int) (description : String)
    (reference? : Option String) (now : Int) :
    List PaymentTransaction × Except PayError PayoutResult :=
  match check_customer_status gw receiver with
  | .error e => (db, .error e)
  | .ok cs =>
      if ¬cs.success then (db, .error .invalidRecipient)
      else if ¬cs.isActive then (db, .error .recipientNotActive)
      else
        let ref := match reference? with
          | some r => if r = "" then genPayoutReference (nextId db) else r
          | none => genPayoutReference (nextId db)
        let t0 := payoutRow db receiver amount description ref now
        let db1 := db ++ [t0]
        match gw.transferCall with
        | .error _ =>
            let t1 := saveHook now
              { t0 with
                status := .failed,
                error_details := PayError.transport.msg }
            (replaceTxn db1 t1, .error .transport)
        | .ok resp =>
            match resp.transfer with
            | some ti =>
                let t1 := if ti.message = some "successful" then
                    { t0 with status := .success, payment_completed_at := some now }
                  else { t0 with status := .failed }
                let t2 := saveHook now { t1 with
                  transaction_id := ti.transaction_id.getD "",
                  response_message := ti.message.getD "" }
                (replaceTxn db1 t2,
                 .ok { success := t2.status == .success, txn := t2,
                       moncash_transaction_id := ti.transaction_id,
                       message := ti.message.getD "" })
            | none =>
                let t1 := saveHook now
                  { t0 with
                    status := .failed,
                    error_details := "invalid api response" }
                (replaceTxn db1 t1,
                 .ok { success := false, txn := t1, errorText := "invalid api response" })

/-- The resolution of the optional refund amount in `create_refund`
(services.py lines 461-464): a Python-falsy amount (absent or zero) means
a full refund; an explicit amount above the original is rejected. -/
def resolveRefundAmount (origAmount : Int) (amount? : Option Int) :
    Except PayError Int :=
  match amount? with
  | none => .ok origAmount
  | some a =>
      if a = 0 then .ok origAmount
      else if a > origAmount then .error .refundExceedsOriginal
      else .ok a

/-- The dictionary `create_refund` returns on completion. -/
structure RefundResult where
  success : Bool
  txn : PaymentTransaction
  original : PaymentTransaction
  refund_amount : Int
  remaining_amount : Int
deriving DecidableEq

/-- The refund transaction row `create_refund` creates (services.py lines
478-487): a refund on the original's order, referencing the original's
gateway transaction id. -/
def refundRow (db : List PaymentTransaction) (orig : PaymentTransaction)
    (amt : Int) (reasonText : String) (now : Int) : PaymentTransaction :=
  saveHook now
    { id := nextId db, order := orig.order, amount := amt,
      status := .initiated, payment_type := .refund,
      reference := orig.transaction_id,
      payer_account :=
        if orig.payer_account ≠ "" then orig.payer_account else orig.payer_phone,
      notes := "Remboursement: " ++ reasonText, created_at := now }

/-- `MonCashService.create_refund` (services.py lines 449-532): find the
original successful payment, resolve and cap the amount against prior
successful refunds referencing the original's gateway id, create the
refund row, then pay out to the original payer's phone. -/
def create_refund (gw : GatewayEnv) (db : List PaymentTransaction)
    (original_transaction_id : Nat) (amount? : Option Int)
    (reason? : Option String) (now : Int) :
    List PaymentTransaction × Except PayError RefundResult :=
  match db.find? (fun t => t.id == original_transaction_id &&
      t.status == .success && t.payment_type == .payment) with
  | none => (db, .error .originalNotEligible)
  | some orig =>
      match resolveRefundAmount orig.amount amount? with
      | .error e => (db, .error e)
      | .ok amt =>
          let total_refunded := sumSuccessfulRefunds db orig.transaction_id
          if total_refunded + amt > orig.amount then
            (db, .error .cumulativeRefundExceedsOriginal)
          else
            let reasonText := match reason? with
              | some r => if r = "" then "Aucune raison specifiee" else r
              | none => "Aucune raison specifiee"
            let r0 := refundRow db orig amt reasonText now
            let db1 := db ++ [r0]
            if orig.payer_phone ≠ "" then
              match orig.order with
              | none =>
                  let r1 := saveHook now
                    { r0 with
                      status := .failed,
                      error_details := PayError.orderAttributeError.msg }
                  (replaceTxn db1 r1, .error .orderAttributeError)
              | some o =>
                  let pr := create_payout gw db1 orig.payer_phone amt
                    ("Remboursement commande #" ++ o.order_number)
                    (some ("REFUND-" ++ toString r0.id)) now
                  match pr.2 with
                  | .error e =>
                      let r1 := saveHook now
                        { r0 with
                          status := .failed,
                          error_details := e.msg }
                      (replaceTxn pr.1 r1, .error e)
                  | .ok res =>
                      let r1 := if res.success then
                          { r0 with
                            status := .success, payment_completed_at := some now,
                            transaction_id := res.moncash_transaction_id.getD "" }
                        else { r0 with status := .failed, error_details := res.errorText }
                      let r2 := saveHook now r1
                      (replaceTxn pr.1 r2,
                       .ok { success := res.success, txn := r2, original := orig,
                             refund_amount := amt,
                             remaining_amount := orig.amount - total_refunded - amt })
            else
              let r1 := saveHook now
                { r0 with
                  status := .failed,
                  error_details := PayError.payerPhoneMissing.msg }
              (replaceTxn db1 r1, .error .payerPhoneMissing)

/-- The slice of Django settings `create_payment` reads. -/
structure MonCashConfig where
  gateway_url : String := "https://gateway.example"
deriving DecidableEq

/-- The dictionary `create_payment` returns on completion. -/
structure CreatePaymentResult where
  success : Bool
  txn : PaymentTransaction
  payment_url : String := ""
  token : String := ""
  expires_at : Option Int := none
  errorText : String := ""
deriving DecidableEq

/-- `MonCashService.create_payment` (services.py lines 118-201) for an
already-fetched order: create the local `initiated` row, call the gateway,
and on a `payment_token` response move it to `pending` with the redirect
URL and a 10-minute expiry. -/
def service_create_payment (cfg : MonCashConfig) (gw : GatewayEnv)
    (db : List PaymentTransaction) (order : Order) (amount? : Option Int)
    (return_url? : Option String) (now : Int) :
    List PaymentTransaction × Except PayError CreatePaymentResult :=
  let amt := match amount? with
    | none => order.total_amount
    | some a => if a = 0 then order.total_amount else a
  if order.status = "paid" then (db, .error .orderAlreadyPaid)
  else
    let t0 := saveHook now
      { id := nextId db, order := some order, amount := amt,
        status := .initiated, payment_type := .payment,
        return_url := return_url?.getD "", created_at := now }
    let db1 := db ++ [t0]
    match gw.createPaymentCall with
    | .error _ =>
        let t1 := saveHook now
          { t0 with
            status := .failed,
            error_details := PayError.transport.msg }
        (replaceTxn db1 t1, .error .transport)
    | .ok r =>
        match r.payment_token with
        | some ptk =>
            let token := ptk.token.getD ""
            let t1 :=
              { t0 with
                payment_token := token, status := .pending,
                response_code := (r.status.map toString).getD "" }
            let t2 := if t1.payment_token ≠ "" then
                { t1 with redirect_url :=
                    cfg.gateway_url ++ "/Payment/Redirect?token=" ++ token }
              else t1
            let t3 := saveHook now { t2 with payment_expires_at := some (now + tenMinutes) }
            (replaceTxn db1 t3,
             .ok { success := true, txn := t3, payment_url := t3.redirect_url,
                   token := t3.payment_token, expires_at := t3.payment_expires_at })
        | none =>
            let t1 := saveHook now
              { t0 with
                status := .failed,
                response_message := "no token",
                error_details := PayError.noPaymentToken.msg }
            (replaceTxn db1 t1,
             .ok { success := false, txn := t1, errorText := PayError.noPaymentToken.msg })

/-- A `PaymentStatusHistory` row (models.py lines 192-210). -/
structure PaymentStatusHistory where
  transaction : Nat
  old_status : TxnStatus
  new_status : TxnStatus
  changed_at : Int := 0
  reason : String := ""
  changed_by : String := ""
deriving DecidableEq

/-- A `PaymentNotification` row (models.py lines 214-232); the raw webhook
payload is kept as its two identifier keys. -/
structure PaymentNotification where
  transaction : Option Nat := none
  raw_orderId : Option String := none
  raw_transactionId : Option String := none
  received_at : Int := 0
  processed : Bool := false
  processing_error : String := ""
deriving DecidableEq

/-- The three payment tables.  Every state-changing operation of the
payments app is embedded as a function on this state; in particular, none
of them appends to `history`, because no code in the repository ever
creates a `PaymentStatusHistory` row. -/
structure PayState where
  txns : List PaymentTransaction := []
  history : List PaymentStatusHistory := []
  notifications : List PaymentNotification := []
deriving DecidableEq

/-- `update_transaction_status` as a state transformer: the transaction row
(and its embedded order) is saved back; no other table is touched. -/
def update_transaction_status_state (gw : GatewayEnv) (now : Int)
    (st : PayState) (t : PaymentTransaction) : PayState × Bool :=
  let r := update_transaction_status gw now t
  ({ st with txns := replaceTxn st.txns r.1 }, r.2)

/-- An inbound webhook body, reduced to the two keys `payment_webhook`
inspects; `none` models an absent key. -/
structure WebhookPayload where
  orderId : Option String := none
  transactionId : Option String := none
deriving DecidableEq

/-- The matching step of `payment_webhook` (views.py lines 644-655): when
the payload has an `orderId` key, look up by `external_order_id`;
otherwise, when it has a `transactionId` key, look up by `transaction_id`;
`find?` is `.filter(...).first()` on the queryset in default order. -/
def webhookMatch (db : List PaymentTransaction) (p : WebhookPayload) :
    Option PaymentTransaction :=
  match p.orderId with
  | some oid => db.find? (fun t => t.external_order_id == oid)
  | none =>
      match p.transactionId with
      | some tid => db.find? (fun t => t.transaction_id == tid)
      | none => none

/-- An HTTP response, reduced to its status code and `success` flag. -/
structure ApiResponse where
  http_status : Nat
  success : Bool
deriving DecidableEq

/-- `payment_webhook` (views.py lines 625-683): store the notification,
match a transaction, refresh its status from the gateway, and answer 200
regardless; an exception while processing (modelled by the `MonCashService`
constructor failing on incomplete configuration) is recorded in
`processing_error`. -/
def payment_webhook (gw : GatewayEnv) (st : PayState) (p : WebhookPayload)
    (now : Int) : PayState × ApiResponse :=
  let n0 : PaymentNotification :=
    { raw_orderId := p.orderId, raw_transactionId := p.transactionId, received_at := now }
  let okResp : ApiResponse := { http_status := 200, success := true }
  if p.orderId.isSome ∨ p.transactionId.isSome then
    match webhookMatch st.txns p with
    | some t =>
        if gw.configOk then
          let r := update_transaction_status gw now t
          ({ st with
             txns := replaceTxn st.txns r.1,
             notifications := st.notifications ++
               [{ n0 with transaction := some t.id, processed := true }] }, okResp)
        else
          ({ st with
             notifications := st.notifications ++
               [{ n0 with
                  transaction := some t.id,
                  processing_error := PayError.configIncomplete.msg }] }, okResp)
    | none =>
        ({ st with notifications := st.notifications ++ [n0] }, okResp)
  else
    ({ st with notifications := st.notifications ++ [n0] }, okResp)

/-- The body of a `create_payment` request (views.py / serializers.py). -/
structure CreatePaymentRequest where
  order_id : Nat
  amount : Option Int := none
  return_url : Option String := none
deriving DecidableEq

/-- `CreatePaymentSerializer` validation: the order must exist and not be
paid, and an explicit truthy amount must be positive. -/
def createPaymentRequestValid (orders : List Order) (req : CreatePaymentRequest) : Bool :=
  (match orders.find? (fun o => o.id == req.order_id) with
   | some o => o.status ≠ "paid"
   | none => false) &&
  (match req.amount with
   | some a => !(a ≠ 0 ∧ a ≤ 0)
   | none => true)

/-- The duplicate-payment lookup of the `create_payment` view (views.py
lines 88-92): first unsettled transaction of the order, in descending
`created_at` order. -/
def existingPayment (db : List PaymentTransaction) (orderId : Nat) :
    Option PaymentTransaction :=
  (db.filter (fun t => (t.order.map Order.id == some orderId) && t.is_pending)).head?

/-- The `create_payment` endpoint (views.py lines 56-138): validation,
ownership check, duplicate-payment rejection, then the service call.  The
transaction list `db` is in descending `created_at` order. -/
def create_payment_view (cfg : MonCashConfig) (gw : GatewayEnv)
    (db : List PaymentTransaction) (orders : List Order)
    (req : CreatePaymentRequest) (userId : Nat) (now : Int) :
    List PaymentTransaction × ApiResponse :=
  if ¬createPaymentRequestValid orders req then
    (db, { http_status := 400, success := false })
  else
    match orders.find? (fun o => o.id == req.order_id) with
    | none => (db, { http_status := 400, success := false })
    | some order =>
        if order.customer ≠ userId then (db, { http_status := 403, success := false })
        else
          match existingPayment db order.id with
          | some e =>
              if ¬(e.is_expired now) then (db, { http_status := 400, success := false })
              else
                match service_create_payment cfg gw db order req.amount req.return_url now with
                | (db2, .ok r) =>
                    (db2, if r.success then { http_status := 201, success := true }
                          else { http_status := 400, success := false })
                | (db2, .error _) => (db2, { http_status := 500, success := false })
          | none =>
              match service_create_payment cfg gw db order req.amount req.return_url now with
              | (db2, .ok r) =>
                  (db2, if r.success then { http_status := 201, success := true }
                        else { http_status := 400, success := false })
              | (db2, .error _) => (db2, { http_status := 500, success := false })

/-- Fixture: a pending 1500 HTG order of customer 2. -/
def order5 : Order :=
  { id := 5, order_number := "N5", status := "pending", customer := 2, total_amount := 1500 }

/-- Fixture: a successful 1500 HTG payment on `order5`, gateway id TX9. -/
def txnT1 : PaymentTransaction :=
  { id := 1, amount := 1500, status := .success, payment_type := .payment,
    transaction_id := "TX9", external_order_id := "ORD-A", payer_phone := "50911111111",
    order := some order5, payment_completed_at := some 10, payment_expires_at := some 9000,
    created_at := 0 }

/-- Fixture: the same transaction while still pending. -/
def txnPending : PaymentTransaction :=
  { txnT1 with status := .pending, payment_completed_at := none }

/-- Fixture: a gateway whose status retrievals report `successful`. -/
def gwDetails : GatewayEnv :=
  { retrieveByTransactionId := fun _ =>
      .ok { payment := some { message := some "successful", transaction_id := some "TX9" } },
    retrieveByOrderId := fun _ =>
      .ok { payment := some { message := some "successful", transaction_id := some "TX9" } } }

/-- Fixture: a gateway accepting payouts to an active account. -/
def gwPayoutOk : GatewayEnv :=
  { customerStatusCall := fun _ =>
      .ok { customerStatus := some { status := ["active", "registered"] } },
    transferCall :=
      .ok { transfer := some { message := some "successful", transaction_id := some "MCTX1" } } }

/-- Fixture: a gateway answering `CreatePayment` with a `payment_token`
object that carries no token string. -/
def gwTokenEmpty : GatewayEnv :=
  { createPaymentCall := .ok { payment_token := some { token := none }, status := some 202 } }

/-- Fixture: a gateway answering `CreatePayment` with token `TOK1`. -/
def gwTokenOk : GatewayEnv :=
  { createPaymentCall := .ok { payment_token := some { token := some "TOK1" }, status := some 202 } }

/-- Fixture: default settings slice. -/
def cfg0 : MonCashConfig := {}

/-- Fixture: an already-expired pending transaction on `order5`, the most
recently created one. -/
def txnNewerExpired : PaymentTransaction :=
  { id := 3, amount := 1500, status := .pending, payment_type := .payment,
    external_order_id := "ORD-C", order := some order5, payment_expires_at := some 50,
    created_at := 100 }

/-- Fixture: an older pending transaction on `order5` that has not expired
yet (its expiry was pushed past the newer one's, e.g. by an admin edit). -/
def txnOlderLive : PaymentTransaction :=
  { id := 2, amount := 1500, status := .pending, payment_type := .payment,
    external_order_id := "ORD-B", order := some order5, payment_expires_at := some 200,
    created_at := 0 }

/-- Fixture: the transaction table holding both, newest first. -/
def dbDuplicate : List PaymentTransaction := [txnNewerExpired, txnOlderLive]

/-- Fixture: a payment request for `order5`. -/
def reqOrder5 : CreatePaymentRequest := { order_id := 5 }

/-- Fixture: a webhook payload carrying both keys, whose `orderId` matches
no transaction while its `transactionId` matches `txnT1`. -/
def payloadBothKeys : WebhookPayload :=
  { orderId := some "ORD-MISSING", transactionId := some "TX9" }

theorem saveHook_id (now : Int) (t : PaymentTransaction) :
    (saveHook now t).id = t.id := by
  unfold saveHook; dsimp only
  split <;> split <;> split <;> rfl

theorem saveHook_status (now : Int) (t : PaymentTransaction) :
    (saveHook now t).status = t.status := by
  unfold saveHook; dsimp only
  split <;> split <;> split <;> rfl

theorem saveHook_amount (now : Int) (t : PaymentTransaction) :
    (saveHook now t).amount = t.amount := by
  unfold saveHook; dsimp only
  split <;> split <;> split <;> rfl

theorem saveHook_payment_type (now : Int) (t : PaymentTransaction) :
    (saveHook now t).payment_type = t.payment_type := by
  unfold saveHook; dsimp only
  split <;> split <;> split <;> rfl

theorem saveHook_reference (now : Int) (t : PaymentTransaction) :
    (saveHook now t).reference = t.reference := by
  unfold saveHook; dsimp only
  split <;> split <;> split <;> rfl

theorem saveHook_order (now : Int) (t : PaymentTransaction) :
    (saveHook now t).order = t.order := by
  unfold saveHook; dsimp only
  split <;> split <;> split <;> rfl

theorem saveHook_transaction_id (now : Int) (t : PaymentTransaction) :
    (saveHook now t).transaction_id = t.transaction_id := by
  unfold saveHook; dsimp only
  split <;> split <;> split <;> rfl

theorem saveHook_payment_expires_at (now : Int) (t : PaymentTransaction) :
    (saveHook now t).payment_expires_at =
      if t.payment_expires_at = none ∧ t.status = .initiated then some (now + tenMinutes)
      else t.payment_expires_at := by
  unfold saveHook; dsimp only
  split <;> split <;> split <;> simp_all

theorem saveHook_payment_completed_at (now : Int) (t : PaymentTransaction) :
    (saveHook now t).payment_completed_at =
      if t.status = .success ∧ t.payment_completed_at = none then some now
      else t.payment_completed_at := by
  unfold saveHook; dsimp only
  split <;> split <;> split <;> simp_all

theorem le_maxId (db : List PaymentTransaction) :
    ∀ t ∈ db, t.id ≤ db.foldr (fun t m => max t.id m) 0 := by
  induction db with
  | nil => intro t h; cases h
  | cons a l ih =>
      intro t h
      cases h with
      | head => exact le_max_left _ _
      | tail _ h => exact le_trans (ih t h) (le_max_right _ _)

theorem id_lt_nextId (db : List PaymentTransaction) :
    ∀ t ∈ db, t.id < nextId db := by
  intro t h
  exact Nat.lt_succ_of_le (le_maxId db t h)

theorem replaceTxn_append_fresh (l : List PaymentTransaction)
    (t t' : PaymentTransaction) (hid : t'.id = t.id)
    (hfresh : ∀ u ∈ l, u.id ≠ t.id) :
    replaceTxn (l ++ [t]) t' = l ++ [t'] := by
  unfold replaceTxn
  rw [List.map_append]
  congr 1
  · apply List.map_congr_left ?_ |>.trans (List.map_id l)
    intro u hu
    simp [hid, hfresh u hu]
  · simp [hid]

theorem replaceTxn_middle_fresh (l1 l2 : List PaymentTransaction)
    (t t' : PaymentTransaction) (hid : t'.id = t.id)
    (h1 : ∀ u ∈ l1, u.id ≠ t.id) (h2 : ∀ u ∈ l2, u.id ≠ t.id) :
    replaceTxn (l1 ++ t :: l2) t' = l1 ++ t' :: l2 := by
  unfold replaceTxn
  rw [List.map_append]
  congr 1
  · apply List.map_congr_left ?_ |>.trans (List.map_id l1)
    intro u hu
    simp [hid, h1 u hu]
  · rw [List.map_cons]
    congr 1
    · simp [hid]
    · apply List.map_congr_left ?_ |>.trans (List.map_id l2)
      intro u hu
      simp [hid, h2 u hu]

theorem sumSuccessfulRefunds_append (l1 l2 : List PaymentTransaction) (ref : String) :
    sumSuccessfulRefunds (l1 ++ l2) ref =
      sumSuccessfulRefunds l1 ref + sumSuccessfulRefunds l2 ref := by
  unfold sumSuccessfulRefunds
  rw [List.filter_append, List.map_append, List.sum_append]

theorem sumSuccessfulRefunds_singleton (t : PaymentTransaction) (ref : String) :
    sumSuccessfulRefunds [t] ref = if countedRefund ref t then t.amount else 0 := by
  unfold sumSuccessfulRefunds
  by_cases h : countedRefund ref t <;> simp [List.filter, h]

theorem sweep_elem (now : Int) (t : PaymentTransaction) :
    (terminalStatus t.status = true →
      (if expiredSweepSelected now t then mark_as_expired now t else t) = t) ∧
    ((if expiredSweepSelected now t then mark_as_expired now t else t).status = .expired →
      t.status = .expired ∨ (t.is_pending = true ∧ t.is_expired now = true)) := by
  by_cases hsel : expiredSweepSelected now t
  · have hstat : t.status = .initiated ∨ t.status = .pending := by
      unfold expiredSweepSelected at hsel
      rcases Bool.and_eq_true .. ▸ hsel with ⟨h1, _⟩
      rcases Bool.or_eq_true .. ▸ h1 with h | h
      · exact Or.inl (by simpa using h)
      · exact Or.inr (by simpa using h)
    constructor
    · intro hterm
      exfalso
      rcases hstat with h | h <;> rw [h] at hterm <;> simp [terminalStatus] at hterm
    · intro hexp
      unfold mark_as_expired at hexp
      by_cases hc : t.is_pending ∧ t.is_expired now
      · exact Or.inr ⟨hc.1, hc.2⟩
      · right
        rw [if_pos hsel, if_neg hc] at hexp
        exfalso
        rw [hexp] at hstat
        rcases hstat with h | h <;> cases h
  · constructor
    · intro _
      rw [if_neg hsel]
    · intro hexp
      rw [if_neg hsel] at hexp
      exact Or.inl hexp

/-- Claim C6: the expiry sweep `cleanup_expired_transactions` (through
`mark_as_expired`) flips to `expired` only rows that are still unsettled
and strictly past `payment_expires_at`; rows in a terminal status
(`success`, `failed`, `cancelled`, `refunded`) are left unchanged, so a
database of terminal rows passes through the sweep untouched. -/
theorem cleanup_expired_only_unsettled (now : Int) (db : List PaymentTransaction) :
    ((∀ t ∈ db, terminalStatus t.status = true) →
      (cleanup_expired_transactions now db).1 = db) ∧
    List.Forall₂ (fun t t' =>
        (terminalStatus t.status = true → t' = t) ∧
        (t'.status = .expired → t.status = .expired ∨
          (t.is_pending = true ∧ t.is_expired now = true)))
      db (cleanup_expired_transactions now db).1 := by
  constructor
  · intro hall
    show db.map (fun t => if expiredSweepSelected now t then mark_as_expired now t else t) = db
    have := List.map_congr_left (l := db)
      (f := fun t => if expiredSweepSelected now t then mark_as_expired now t else t)
      (g := id) (fun t ht => (sweep_elem now t).1 (hall t ht))
    rw [this, List.map_id]
  · show List.Forall₂ _ db
      (db.map (fun t => if expiredSweepSelected now t then mark_as_expired now t else t))
    induction db with
    | nil => exact List.Forall₂.nil
    | cons a l ih => exact List.Forall₂.cons (sweep_elem now a) ih

/-- Witness for C6: a database holding only the terminal (successful)
transaction `txnT1` is unchanged by the sweep. -/
theorem cleanup_expired_only_unsettled_witness :
    (cleanup_expired_transactions 10000 [txnT1]).1 = [txnT1] :=
  (cleanup_expired_only_unsettled 10000 [txnT1]).1 (by decide)

/-- Counterexample for C9: a token response whose `expires_in` is 20
seconds is cached for 30 seconds, not for a duration strictly shorter than
20, so the cached token outlives its actual expiry. -/
theorem token_cache_counterexample :
    tokenCacheDuration { access_token := some "tok", expires_in := some 20 } = 30 ∧
    ¬ tokenCacheDuration { access_token := some "tok", expires_in := some 20 } < 20 := by
  decide

/-- Claim C9 (amended): `get_access_token` caches the token for
`max(expires_in - 10, 30)` seconds; whenever `expires_in` exceeds 30 this
is strictly shorter than `expires_in`, and from 40 seconds up it is
exactly the 10-seconds-early renewal; for `expires_in ≤ 30` the 30-second
floor is not shorter than the reported expiry. -/
theorem token_cache_buffer (r : TokenResponse) (e : Int)
    (he : r.expires_in = some e) :
    tokenCacheDuration r = max (e - 10) 30 ∧
    (30 < e → tokenCacheDuration r < e) ∧
    (40 ≤ e → tokenCacheDuration r = e - 10) := by
  refine ⟨by simp [tokenCacheDuration, tokenCacheTimeout, he], ?_, ?_⟩ <;>
    intro h <;> simp [tokenCacheDuration, tokenCacheTimeout, he] <;> omega

/-- Witness for C9 (amended): the documented 59-second expiry yields a
49-second cache, the 10-seconds-early renewal. -/
theorem token_cache_buffer_witness :
    tokenCacheDuration { access_token := some "tok2", expires_in := some 59 } = 59 - 10 :=
  (token_cache_buffer { access_token := some "tok2", expires_in := some 59 } 59 rfl).2.2
    (by norm_num)

/-- Counterexample for C4: a payload carrying both keys, whose
`transactionId` matches the stored transaction `txnT1` but whose `orderId`
matches nothing; the matching step finds no transaction, although a lookup
by the reported `transactionId` would have succeeded, so `transaction_id`
is not tried first and no fallback occurs. -/
theorem webhook_match_counterexample :
    (∃ t ∈ [txnT1], t.transaction_id = "TX9") ∧
    payloadBothKeys.transactionId = some "TX9" ∧
    webhookMatch [txnT1] payloadBothKeys = none := by
  decide

/-- Claim C4 (amended): the webhook matching step uses `external_order_id`
first: whenever the payload has an `orderId` key, only that lookup runs —
if it matches nothing the webhook stores an unmatched notification and
changes no transaction, even when some transaction matches the reported
`transactionId`; the `transaction_id` lookup runs only when the payload
has no `orderId` key. -/
theorem webhook_match_orderId_first (gw : GatewayEnv) (st : PayState)
    (p : WebhookPayload) (now : Int) :
    (∀ oid, p.orderId = some oid →
      (∀ t ∈ st.txns, t.external_order_id ≠ oid) →
      (payment_webhook gw st p now).1.txns = st.txns ∧
      ∃ n, (payment_webhook gw st p now).1.notifications = st.notifications ++ [n] ∧
        n.processed = false ∧ n.transaction = none) ∧
    (p.orderId = none → ∀ tid, p.transactionId = some tid →
      webhookMatch st.txns p = st.txns.find? (fun u => u.transaction_id == tid)) := by
  constructor
  · intro oid ho hmiss
    have hm : webhookMatch st.txns p = none := by
      rw [webhookMatch, ho]
      simp only [List.find?_eq_none]
      intro t ht
      simpa using hmiss t ht
    rw [payment_webhook]
    rw [if_pos (Or.inl (by simp [ho])), hm]
    exact ⟨rfl, _, rfl, rfl, rfl⟩
  · intro ho tid ht
    rw [webhookMatch, ho, ht]

/-- Witness for C4 (amended): concrete run of the webhook on
`payloadBothKeys`: the transaction table is unchanged. -/
theorem webhook_match_orderId_first_witness :
    (payment_webhook gwDetails { txns := [txnT1] } payloadBothKeys 70).1.txns = [txnT1] :=
  (((webhook_match_orderId_first gwDetails { txns := [txnT1] } payloadBothKeys 70).1
      "ORD-MISSING" rfl) (by decide)).1

/-- Claim C8: the row persisted by `create_payout` carries `order = none`
(services.py line 260), but the `PaymentTransaction.order` foreign key is
declared without `null=True` (models.py lines 37-42), i.e. NOT NULL, so
the insert cannot be stored successfully: evaluated at a concrete payout
to an active account, the business logic produces exactly one row, a
`payout` row with no order, while the column forbids NULL. -/
theorem payout_row_has_null_order :
    ((create_payout gwPayoutOk [] "50912345678" 500 "Paiement fournisseur" none 0).1.map
        (fun t => (t.order, t.payment_type))) = [(none, PaymentType.payout)] ∧
    orderFieldNull = false := by
  decide

/-- Claim C5: `update_transaction_status` performs the status transition
`pending → success` on the concrete transaction `txnPending` (whose
gateway lookup reports `successful`) yet creates no `PaymentStatusHistory`
row: the history table stays empty.  No code path of the repository writes
that table. -/
theorem status_transition_writes_no_history :
    txnPending.status = .pending ∧
    ((update_transaction_status_state gwDetails 70 { txns := [txnPending] } txnPending).1.txns.map
        PaymentTransaction.status) = [.success] ∧
    (update_transaction_status_state gwDetails 70 { txns := [txnPending] } txnPending).1.history
      = [] := by
  decide

/-- Claim C10: every inbound webhook, once its `PaymentNotification` row is
stored, answers HTTP 200 with `success = true`, match or no match; a
processing exception (the `MonCashService` constructor failing on
incomplete configuration) is recorded in `processing_error` instead of
propagating, leaving `processed = false`; an unmatched notification also
keeps `processed = false` and no error. -/
theorem webhook_stores_then_always_succeeds (gw : GatewayEnv) (st : PayState)
    (p : WebhookPayload) (now : Int) :
    (payment_webhook gw st p now).2 = { http_status := 200, success := true } ∧
    ∃ n, (payment_webhook gw st p now).1.notifications = st.notifications ++ [n] ∧
      (webhookMatch st.txns p = none → n.processed = false ∧ n.processing_error = "") ∧
      (gw.configOk = false → ∀ t, webhookMatch st.txns p = some t →
        n.processed = false ∧ n.processing_error ≠ "") := by
  by_cases hkeys : p.orderId.isSome ∨ p.transactionId.isSome
  · cases hm : webhookMatch st.txns p with
    | none =>
        rw [payment_webhook, if_pos hkeys, hm]
        exact ⟨rfl, _, rfl, fun _ => ⟨rfl, rfl⟩,
          fun _ t htm => absurd htm (by simp)⟩
    | some t =>
        by_cases hcfg : gw.configOk
        · rw [payment_webhook, if_pos hkeys, hm]
          dsimp only
          rw [if_pos hcfg]
          exact ⟨rfl, _, rfl, fun h => absurd h (by simp),
            fun hfalse _ _ => absurd hcfg (by simp [hfalse])⟩
        · rw [payment_webhook, if_pos hkeys, hm]
          dsimp only
          rw [if_neg hcfg]
          refine ⟨rfl, _, rfl, fun h => absurd h (by simp), fun _ t' _ => ⟨rfl, ?_⟩⟩
          show PayError.configIncomplete.msg ≠ ""
          decide
  · have ho : p.orderId = none := by
      cases h : p.orderId
      · rfl
      · exact absurd (Or.inl (by simp [h])) hkeys
    have ht : p.transactionId = none := by
      cases h : p.transactionId
      · rfl
      · exact absurd (Or.inr (by simp [h])) hkeys
    have hm : webhookMatch st.txns p = none := by rw [webhookMatch, ho, ht]
    rw [payment_webhook, if_neg hkeys]
    exact ⟨rfl, _, rfl, fun _ => ⟨rfl, rfl⟩,
      fun _ t htm => absurd htm (by simp [hm])⟩

/-- Witness for C10: a concrete unmatched webhook still answers 200 with
success. -/
theorem webhook_stores_then_always_succeeds_witness :
    (payment_webhook gwDetails { txns := [] }
        { orderId := some "ORD-NOWHERE" } 5).2 =
      { http_status := 200, success := true } :=
  (webhook_stores_then_always_succeeds gwDetails { txns := [] }
      { orderId := some "ORD-NOWHERE" } 5).1

/-- Claim C2: when the gateway status lookup for a transaction reports
message `successful`, `update_transaction_status` returns true, sets the
status to `success`, stamps `payment_completed_at` with the current time,
and, for a `payment` with a linked order, sets that order's status to
`paid`; the webhook produces this same effect on a matched transaction by
applying `update_transaction_status` to it. -/
theorem successful_report_flips_transaction (gw : GatewayEnv) (now : Int)
    (t : PaymentTransaction) (d : PaymentDetails) (p : PaymentInfo)
    (hl : lookupPaymentDetails gw t = some d)
    (hp : d.payment = some p)
    (hm : p.message = some "successful") :
    (update_transaction_status gw now t).2 = true ∧
    (update_transaction_status gw now t).1.status = .success ∧
    (update_transaction_status gw now t).1.payment_completed_at = some now ∧
    (t.payment_type = .payment → ∀ o, t.order = some o →
      (update_transaction_status gw now t).1.order = some { o with status := "paid" }) ∧
    (∀ st pl, gw.configOk = true → webhookMatch st.txns pl = some t →
      (payment_webhook gw st pl now).1.txns =
        replaceTxn st.txns (update_transaction_status gw now t).1) := by
  have hguard : ¬(t.transaction_id = "" ∧ t.external_order_id = "") := by
    rintro ⟨h1, h2⟩
    rw [lookupPaymentDetails] at hl
    simp [h1, h2] at hl
  have hred : update_transaction_status gw now t =
      (let t1 :=
        if p.message = some "successful" then
          let base := { t with status := .success, payment_completed_at := some now }
          if t.payment_type = .payment ∧ t.order.isSome then
            { base with order := t.order.map (fun o => { o with status := "paid" }) }
          else base
        else if p.message = some "failed" ∨ p.message = some "cancelled" then
          { t with status := .failed }
        else t
       let t2 := { t1 with
          transaction_id := p.transaction_id.getD t1.transaction_id,
          reference := p.reference.getD t1.reference,
          payer_phone := p.payer.getD t1.payer_phone,
          response_message := p.message.getD "" }
       (saveHook now t2, true)) := by
    rw [update_transaction_status, if_neg hguard, hl]
    dsimp only
    rw [hp]
  rw [hred]
  dsimp only
  rw [if_pos hm]
  by_cases hpo : t.payment_type = .payment ∧ t.order.isSome
  · rw [if_pos hpo]
    dsimp only
    refine ⟨rfl, ?_, ?_, ?_, ?_⟩
    · rw [saveHook_status]
    · rw [saveHook_payment_completed_at]
      simp
    · intro _ o ho
      rw [saveHook_order]
      simp [ho]
    · intro st pl hcfg hmatch
      have hkeys : pl.orderId.isSome ∨ pl.transactionId.isSome := by
        rw [webhookMatch] at hmatch
        cases ho : pl.orderId with
        | some _ => exact Or.inl (by simp [ho])
        | none =>
            rw [ho] at hmatch
            cases ht : pl.transactionId with
            | some _ => exact Or.inr (by simp [ht])
            | none => rw [ht] at hmatch; cases hmatch
      rw [payment_webhook, if_pos hkeys, hmatch]
      dsimp only
      rw [if_pos hcfg, hred]
      dsimp only
      rw [if_pos hm, if_pos hpo]
  · rw [if_neg hpo]
    dsimp only
    refine ⟨rfl, ?_, ?_, ?_, ?_⟩
    · rw [saveHook_status]
    · rw [saveHook_payment_completed_at]
      simp
    · intro hpt o ho
      exact absurd ⟨hpt, by simp [ho]⟩ hpo
    · intro st pl hcfg hmatch
      have hkeys : pl.orderId.isSome ∨ pl.transactionId.isSome := by
        rw [webhookMatch] at hmatch
        cases ho : pl.orderId with
        | some _ => exact Or.inl (by simp [ho])
        | none =>
            rw [ho] at hmatch
            cases ht : pl.transactionId with
            | some _ => exact Or.inr (by simp [ht])
            | none => rw [ht] at hmatch; cases hmatch
      rw [payment_webhook, if_pos hkeys, hmatch]
      dsimp only
      rw [if_pos hcfg, hred]
      dsimp only
      rw [if_pos hm, if_neg hpo]

/-- Witness for C2: the pending fixture transaction, whose gateway lookup
reports `successful`, ends in status `success`. -/
theorem successful_report_flips_transaction_witness :
    (update_transaction_status gwDetails 70 txnPending).1.status = .success :=
  (successful_report_flips_transaction gwDetails 70 txnPending
    { payment := some { message := some "successful", transaction_id := some "TX9" } }
    { message := some "successful", transaction_id := some "TX9" }
    (by decide) rfl rfl).2.1

theorem saveHook_redirect_url (now : Int) (t : PaymentTransaction) :
    (saveHook now t).redirect_url = t.redirect_url := by
  unfold saveHook; dsimp only
  split <;> split <;> split <;> rfl

theorem redirect_url_ne_empty (a b : String) :
    a ++ "/Payment/Redirect?token=" ++ b ≠ "" := by
  intro h
  have h2 := congrArg String.length h
  rw [String.length_append, String.length_append] at h2
  have h3 : ("/Payment/Redirect?token=" : String).length = 24 := by decide
  have h4 : ("" : String).length = 0 := by decide
  omega

/-- Counterexample for C7: a gateway response that does contain a
`payment_token` object, but one whose `token` string is absent: the call
still returns success with a `pending` transaction, yet the gateway
redirect URL is empty, not non-empty as claimed. -/
theorem create_payment_empty_token_counterexample :
    ((service_create_payment cfg0 gwTokenEmpty [] order5 none none 0).2.toOption.map
        (fun r => (r.success, r.txn.status, r.payment_url))) =
      some (true, .pending, "") := by
  decide

/-- Claim C7 (amended): whenever the gateway response to `CreatePayment`
contains a `payment_token`, the result is a success carrying a transaction
in status `pending` with `payment_expires_at` exactly 10 minutes after the
creation time; the gateway redirect URL is non-empty whenever the token
string inside the `payment_token` is non-empty. -/
theorem create_payment_token_pending (cfg : MonCashConfig) (gw : GatewayEnv)
    (db : List PaymentTransaction) (order : Order) (amount? : Option Int)
    (return_url? : Option String) (now : Int) (r : CreatePaymentResp) (ptk : TokenObj)
    (hresp : gw.createPaymentCall = .ok r)
    (htok : r.payment_token = some ptk)
    (hpaid : order.status ≠ "paid") :
    ∃ res, (service_create_payment cfg gw db order amount? return_url? now).2 = .ok res ∧
      res.success = true ∧
      res.txn.status = .pending ∧
      res.txn.payment_expires_at = some (now + tenMinutes) ∧
      res.expires_at = some (now + tenMinutes) ∧
      (ptk.token.getD "" ≠ "" → res.payment_url ≠ "") := by
  rw [service_create_payment.eq_def]
  dsimp only
  rw [if_neg hpaid, hresp]
  dsimp only
  rw [htok]
  dsimp only
  refine ⟨_, rfl, rfl, ?_, ?_, ?_, ?_⟩
  · rw [saveHook_status]
    by_cases htk : ptk.token.getD "" ≠ "" <;> simp [htk]
  · rw [saveHook_payment_expires_at]
    simp
  · show (saveHook now _).payment_expires_at = some (now + tenMinutes)
    rw [saveHook_payment_expires_at]
    simp
  · intro htk
    show (saveHook now _).redirect_url ≠ ""
    rw [saveHook_redirect_url]
    rw [if_pos (by simpa using htk)]
    exact redirect_url_ne_empty _ _

/-- Witness for C7 (amended): the fixture gateway returning token `TOK1`
yields a pending transaction expiring 10 minutes after creation. -/
theorem create_payment_token_pending_witness :
    ∃ res, (service_create_payment cfg0 gwTokenOk [] order5 none none 0).2 = .ok res ∧
      res.success = true ∧
      res.txn.status = .pending ∧
      res.txn.payment_expires_at = some (0 + tenMinutes) ∧
      res.expires_at = some (0 + tenMinutes) ∧
      ((TokenObj.mk (some "TOK1")).token.getD "" ≠ "" → res.payment_url ≠ "") :=
  create_payment_token_pending cfg0 gwTokenOk [] order5 none none 0
    { payment_token := some { token := some "TOK1" }, status := some 202 }
    { token := some "TOK1" } rfl rfl (by decide)

/-- Counterexample for C3: the database (in descending `created_at`
order, as the queryset default ordering delivers it) holds an expired
pending transaction created after a still-live pending transaction for the
same order.  A non-expired unsettled transaction for the order exists, yet
the endpoint answers 201 and creates a new transaction, because the
duplicate check only inspects the first (most recent) unsettled row. -/
theorem duplicate_payment_check_counterexample :
    List.Pairwise (fun a b => b.created_at ≤ a.created_at) dbDuplicate ∧
    (∃ t ∈ dbDuplicate, t.order.map Order.id = some order5.id ∧
       t.is_pending = true ∧ t.is_expired 60 = false) ∧
    (create_payment_view cfg0 gwTokenOk dbDuplicate [order5] reqOrder5 2 60).2 =
      { http_status := 201, success := true } ∧
    (create_payment_view cfg0 gwTokenOk dbDuplicate [order5] reqOrder5 2 60).1.length =
      dbDuplicate.length + 1 := by
  decide

/-- Claim C3 (amended): the endpoint rejects with 400 and creates no new
transaction whenever the first (most recently created) transaction of the
order with status in {initiated, pending, processing} exists and is not
past its expiry; only that first row is consulted, so an older unsettled
non-expired transaction does not by itself cause a rejection. -/
theorem duplicate_payment_rejected (cfg : MonCashConfig) (gw : GatewayEnv)
    (db : List PaymentTransaction) (orders : List Order)
    (req : CreatePaymentRequest) (userId : Nat) (now : Int)
    (order : Order) (e : PaymentTransaction)
    (hv : createPaymentRequestValid orders req = true)
    (hfind : orders.find? (fun o => o.id == req.order_id) = some order)
    (hown : order.customer = userId)
    (hex : existingPayment db order.id = some e)
    (hlive : e.is_expired now = false) :
    create_payment_view cfg gw db orders req userId now =
      (db, { http_status := 400, success := false }) := by
  rw [create_payment_view, if_neg (by simp [hv]), hfind]
  dsimp only
  rw [if_neg (by simp [hown]), hex]
  dsimp only
  rw [if_pos (by simp [hlive])]

/-- Witness for C3 (amended): with only the live pending transaction in
the table, the request is rejected with 400 and the table is unchanged. -/
theorem duplicate_payment_rejected_witness :
    create_payment_view cfg0 gwTokenOk [txnOlderLive] [order5] reqOrder5 2 60 =
      ([txnOlderLive], { http_status := 400, success := false }) :=
  duplicate_payment_rejected cfg0 gwTokenOk [txnOlderLive] [order5] reqOrder5 2 60
    order5 txnOlderLive (by decide) (by decide) rfl (by decide) (by decide)

theorem replaceTxn_append_append_fresh (l1 l2 : List PaymentTransaction)
    (t t' : PaymentTransaction) (hid : t'.id = t.id)
    (h1 : ∀ u ∈ l1, u.id ≠ t.id) (h2 : ∀ u ∈ l2, u.id ≠ t.id) :
    replaceTxn ((l1 ++ [t]) ++ l2) t' = (l1 ++ [t']) ++ l2 := by
  rw [List.append_assoc, List.append_assoc, List.singleton_append, List.singleton_append]
  exact replaceTxn_middle_fresh l1 l2 t t' hid h1 h2

theorem payoutRow_id (db : List PaymentTransaction) (receiver : String)
    (amount : Int) (description ref : String) (now : Int) :
    (payoutRow db receiver amount description ref now).id = nextId db := by
  rw [payoutRow, saveHook_id]

theorem payoutRow_payment_type (db : List PaymentTransaction) (receiver : String)
    (amount : Int) (description ref : String) (now : Int) :
    (payoutRow db receiver amount description ref now).payment_type = .payout := by
  rw [payoutRow, saveHook_payment_type]

theorem refundRow_id (db : List PaymentTransaction) (orig : PaymentTransaction)
    (amt : Int) (reasonText : String) (now : Int) :
    (refundRow db orig amt reasonText now).id = nextId db := by
  rw [refundRow, saveHook_id]

theorem refundRow_payment_type (db : List PaymentTransaction) (orig : PaymentTransaction)
    (amt : Int) (reasonText : String) (now : Int) :
    (refundRow db orig amt reasonText now).payment_type = .refund := by
  rw [refundRow, saveHook_payment_type]

theorem refundRow_reference (db : List PaymentTransaction) (orig : PaymentTransaction)
    (amt : Int) (reasonText : String) (now : Int) :
    (refundRow db orig amt reasonText now).reference = orig.transaction_id := by
  rw [refundRow, saveHook_reference]

theorem refundRow_amount (db : List PaymentTransaction) (orig : PaymentTransaction)
    (amt : Int) (reasonText : String) (now : Int) :
    (refundRow db orig amt reasonText now).amount = amt := by
  rw [refundRow, saveHook_amount]

theorem insert_saved_shape (db : List PaymentTransaction)
    (t t' : PaymentTransaction) (hid : t'.id = t.id) (ht : t.id = nextId db) :
    replaceTxn (db ++ [t]) t' = db ++ [t'] :=
  replaceTxn_append_fresh db t t' hid
    (fun u hu => by rw [ht] at *; exact Nat.ne_of_lt (id_lt_nextId db u hu))

theorem insert_saved_shape_mid (db rest : List PaymentTransaction)
    (t t' : PaymentTransaction) (hid : t'.id = t.id) (ht : t.id = nextId db)
    (hrest : ∀ u ∈ rest, u.id ≠ t.id) :
    replaceTxn ((db ++ [t]) ++ rest) t' = (db ++ [t']) ++ rest :=
  replaceTxn_append_append_fresh db rest t t' hid
    (fun u hu => by rw [ht] at *; exact Nat.ne_of_lt (id_lt_nextId db u hu)) hrest

theorem create_payout_db_shape (gw : GatewayEnv) (db : List PaymentTransaction)
    (receiver : String) (amount : Int) (description : String)
    (reference? : Option String) (now : Int) :
    (create_payout gw db receiver amount description reference? now).1 = db ∨
    ∃ p, (create_payout gw db receiver amount description reference? now).1 = db ++ [p] ∧
      p.id = nextId db ∧ p.payment_type = .payout := by
  rw [create_payout.eq_def]
  cases hcs : check_customer_status gw receiver with
  | error e => exact Or.inl rfl
  | ok cs =>
      dsimp only
      by_cases h1 : ¬cs.success
      · rw [if_pos h1]; exact Or.inl rfl
      · rw [if_neg h1]
        by_cases h2 : ¬cs.isActive
        · rw [if_pos h2]; exact Or.inl rfl
        · rw [if_neg h2]
          cases htr : gw.transferCall with
          | error e =>
              dsimp only
              rw [insert_saved_shape db _ _ (by simp [saveHook_id, payoutRow_id]) (by simp [saveHook_id, payoutRow_id])]
              exact Or.inr ⟨_, rfl, by simp [saveHook_id, payoutRow_id], by simp [saveHook_payment_type, payoutRow_payment_type]⟩
          | ok resp =>
              dsimp only
              cases hti : resp.transfer with
              | some ti =>
                  dsimp only
                  by_cases hmsg : ti.message = some "successful"
                  · rw [if_pos hmsg]
                    rw [insert_saved_shape db _ _ (by simp [saveHook_id, payoutRow_id]) (by simp [saveHook_id, payoutRow_id])]
                    exact Or.inr ⟨_, rfl, by simp [saveHook_id, payoutRow_id], by simp [saveHook_payment_type, payoutRow_payment_type]⟩
                  · rw [if_neg hmsg]
                    rw [insert_saved_shape db _ _ (by simp [saveHook_id, payoutRow_id]) (by simp [saveHook_id, payoutRow_id])]
                    exact Or.inr ⟨_, rfl, by simp [saveHook_id, payoutRow_id], by simp [saveHook_payment_type, payoutRow_payment_type]⟩
              | none =>
                  dsimp only
                  rw [insert_saved_shape db _ _ (by simp [saveHook_id, payoutRow_id]) (by simp [saveHook_id, payoutRow_id])]
                  exact Or.inr ⟨_, rfl, by simp [saveHook_id, payoutRow_id], by simp [saveHook_payment_type, payoutRow_payment_type]⟩

theorem create_payout_sum (gw : GatewayEnv) (db : List PaymentTransaction)
    (receiver : String) (amount : Int) (description : String)
    (reference? : Option String) (now : Int) (ref : String) :
    sumSuccessfulRefunds
        (create_payout gw db receiver amount description reference? now).1 ref =
      sumSuccessfulRefunds db ref := by
  rcases create_payout_db_shape gw db receiver amount description reference? now with
    h | ⟨p, h, _, hpt⟩
  · rw [h]
  · rw [h, sumSuccessfulRefunds_append, sumSuccessfulRefunds_singleton]
    have hc : countedRefund ref p = false := by
      simp [countedRefund, hpt]
    rw [hc]
    simp

theorem countedRefund_not_success (ref : String) (t : PaymentTransaction)
    (h : t.status ≠ .success) : countedRefund ref t = false := by
  simp [countedRefund, h]

theorem countedRefund_true (ref : String) (t : PaymentTransaction)
    (h1 : t.reference = ref) (h2 : t.payment_type = .refund)
    (h3 : t.status = .success) : countedRefund ref t = true := by
  simp [countedRefund, h1, h2, h3]

theorem sum_after_payout_replace (gw : GatewayEnv) (db : List PaymentTransaction)
    (r0 r' : PaymentTransaction) (receiver desc : String) (amount : Int)
    (reference? : Option String) (now : Int) (ref : String)
    (hr0 : r0.id = nextId db) (hid : r'.id = r0.id) :
    sumSuccessfulRefunds
        (replaceTxn (create_payout gw (db ++ [r0]) receiver amount desc reference? now).1 r')
        ref =
      sumSuccessfulRefunds db ref + (if countedRefund ref r' then r'.amount else 0) := by
  rcases create_payout_db_shape gw (db ++ [r0]) receiver amount desc reference? now with
    h | ⟨p, h, hpid, hpt⟩
  · rw [h, insert_saved_shape db r0 r' hid hr0, sumSuccessfulRefunds_append,
      sumSuccessfulRefunds_singleton]
  · have hpne : ∀ u ∈ [p], u.id ≠ r0.id := by
      intro u hu
      rw [List.mem_singleton] at hu
      subst hu
      rw [hpid, hr0]
      have hlt := id_lt_nextId (db ++ [r0]) r0 (by simp)
      rw [hr0] at hlt
      omega
    rw [h, insert_saved_shape_mid db [p] r0 r' hid hr0 hpne,
      sumSuccessfulRefunds_append, sumSuccessfulRefunds_append,
      sumSuccessfulRefunds_singleton, sumSuccessfulRefunds_singleton]
    have hc : countedRefund ref p = false := by
      simp [countedRefund, hpt]
    rw [hc]
    simp

/-- Claim C1: `create_refund` against an original successful payment
raises a `MonCashAPIError` whenever the explicitly requested amount
exceeds the original's amount, and whenever the resolved amount plus the
successful refunds already referencing the original's gateway id would
exceed the original amount; consequently, across every outcome of the
call, the sum of successful refunds referencing the original's gateway id
never comes to exceed the original's amount. -/
theorem refund_cap (gw : GatewayEnv) (db : List PaymentTransaction)
    (oid : Nat) (amount? : Option Int) (reason? : Option String) (now : Int)
    (orig : PaymentTransaction)
    (hfind : db.find? (fun t => t.id == oid && t.status == .success &&
        t.payment_type == .payment) = some orig) :
    (∀ a, amount? = some a → a ≠ 0 → orig.amount < a →
      create_refund gw db oid amount? reason? now =
        (db, .error .refundExceedsOriginal)) ∧
    (∀ amt, resolveRefundAmount orig.amount amount? = .ok amt →
      orig.amount < sumSuccessfulRefunds db orig.transaction_id + amt →
      create_refund gw db oid amount? reason? now =
        (db, .error .cumulativeRefundExceedsOriginal)) ∧
    (sumSuccessfulRefunds db orig.transaction_id ≤ orig.amount →
      sumSuccessfulRefunds (create_refund gw db oid amount? reason? now).1
        orig.transaction_id ≤ orig.amount) := by
  refine ⟨?_, ?_, ?_⟩
  · intro a ha hnz hlt
    have hres : resolveRefundAmount orig.amount amount? =
        .error .refundExceedsOriginal := by
      rw [ha, resolveRefundAmount]
      rw [if_neg hnz, if_pos hlt]
    rw [create_refund.eq_def, hfind]
    dsimp only
    rw [hres]
  · intro amt hres hgt
    rw [create_refund.eq_def, hfind]
    dsimp only
    rw [hres]
    dsimp only
    rw [if_pos hgt]
  · intro hpre
    rw [create_refund.eq_def, hfind]
    dsimp only
    cases hres : resolveRefundAmount orig.amount amount? with
    | error e => exact hpre
    | ok amt =>
        dsimp only
        by_cases hguard : orig.amount < sumSuccessfulRefunds db orig.transaction_id + amt
        · rw [if_pos hguard]
          exact hpre
        · rw [if_neg hguard]
          have hbound : sumSuccessfulRefunds db orig.transaction_id + amt ≤ orig.amount :=
            not_lt.mp hguard
          by_cases hphone : orig.payer_phone ≠ ""
          · rw [if_pos hphone]
            cases ho : orig.order with
            | none =>
                dsimp only
                rw [insert_saved_shape db _ _ (by rw [saveHook_id])
                    (refundRow_id db orig amt _ now),
                  sumSuccessfulRefunds_append, sumSuccessfulRefunds_singleton,
                  countedRefund_not_success _ _ (by simp [saveHook_status])]
                simpa using hpre
            | some o =>
                dsimp only
                generalize (match reason? with
                  | some r => if r = "" then "Aucune raison specifiee" else r
                  | none => "Aucune raison specifiee") = RT
                split
                · rw [sum_after_payout_replace gw db _ _ _ _ _ _ _ _
                      (refundRow_id db orig amt RT now) (by rw [saveHook_id]),
                    countedRefund_not_success _ _ (by simp [saveHook_status])]
                  simpa using hpre
                next res heq =>
                  by_cases hsucc : res.success = true
                  · rw [if_pos hsucc]
                    rw [sum_after_payout_replace gw db _ _ _ _ _ _ _ _
                        (refundRow_id db orig amt RT now) (by rw [saveHook_id]),
                      countedRefund_true _ _
                        (by simp [saveHook_reference, refundRow_reference])
                        (by simp [saveHook_payment_type, refundRow_payment_type])
                        (by simp [saveHook_status])]
                    rw [if_pos rfl]
                    simpa [saveHook_amount, refundRow_amount] using hbound
                  · rw [if_neg hsucc]
                    rw [sum_after_payout_replace gw db _ _ _ _ _ _ _ _
                        (refundRow_id db orig amt RT now) (by rw [saveHook_id]),
                      countedRefund_not_success _ _ (by simp [saveHook_status])]
                    simpa using hpre
          · rw [if_neg hphone]
            dsimp only
            rw [insert_saved_shape db _ _ (by rw [saveHook_id])
                (refundRow_id db orig amt _ now),
              sumSuccessfulRefunds_append, sumSuccessfulRefunds_singleton,
              countedRefund_not_success _ _ (by simp [saveHook_status])]
            simpa using hpre

/-- Witness for C1: requesting a refund of 2000 on the 1500-amount success
transaction is rejected with the domain error, leaving the table
unchanged. -/
theorem refund_cap_witness :
    create_refund gwPayoutOk [txnT1] 1 (some 2000) none 50 =
      ([txnT1], .error .refundExceedsOriginal) :=
  (refund_cap gwPayoutOk [txnT1] 1 (some 2000) none 50 txnT1 (by decide)).1
    2000 rfl (by decide) (by decide)

end Afepanou
